import Mathlib

/-!
Verification development for the `MediaProperties` class of
`src/packages/@webex/plugin-meetings/src/media/properties.ts`.

The TypeScript class is shallowly embedded: each JavaScript field becomes a
field of a Lean structure, each method becomes a pure function on that
structure, and the event-driven wait on the media connection becomes a
function over an explicit trace of observed events.  JavaScript nullish
values are made explicit with `JSVal` (null / undefined / actual value),
because the source distinguishes them (`null` assignments vs `undefined`
initial values) and uses truthiness tests (`!!`, `||`, optional chaining).
-/

/-- Connection states exposed by `@webex/internal-media-core` (external
library); `waitForMediaConnectionConnected` only compares against
`Connected`. -/
inductive ConnectionState where
  | new
  | connecting
  | connected
  | disconnected
  | failed
  | closed
deriving DecidableEq, Repr

/-- A JavaScript value that may be `null`, `undefined`, or an actual value. -/
inductive JSVal (α : Type) where
  | null
  | undef
  | val (a : α)
deriving DecidableEq, Repr

/-- JavaScript truthiness for object-valued slots: every actual object is
truthy, `null` and `undefined` are falsy. -/
def JSVal.isObjTruthy {α : Type} : JSVal α → Bool
  | .val _ => true
  | _ => false

/-- JavaScript truthiness for string-valued slots: the empty string is falsy,
as are `null` and `undefined`. -/
def JSVal.isStrTruthy : JSVal String → Bool
  | .val s => !(s == "")
  | _ => false

/-- Opaque handle for a `LocalCameraStream` from `@webex/media-helpers`. -/
structure LocalCameraStream where
  id : Nat
deriving DecidableEq, Repr

/-- Opaque handle for a `LocalMicrophoneStream` from `@webex/media-helpers`. -/
structure LocalMicrophoneStream where
  id : Nat
deriving DecidableEq, Repr

/-- Opaque handle for a `LocalDisplayStream` from `@webex/media-helpers`. -/
structure LocalDisplayStream where
  id : Nat
deriving DecidableEq, Repr

/-- Opaque handle for a `LocalSystemAudioStream` from `@webex/media-helpers`. -/
structure LocalSystemAudioStream where
  id : Nat
deriving DecidableEq, Repr

/-- Opaque handle for a `RemoteStream` from `@webex/media-helpers`. -/
structure RemoteStream where
  id : Nat
deriving DecidableEq, Repr

/-- Opaque value stored by `setMediaSettings`. -/
structure SettingsValue where
  raw : Nat
deriving DecidableEq, Repr

/-- The webrtc media connection handle (`webrtcMediaConnection`): the only
observation the embedded methods make of it is `getConnectionState()` at the
moment of the call; everything later comes in through the event trace. -/
structure Connection where
  connectionState : ConnectionState
deriving DecidableEq, Repr

/-- The `MediaDirection` type of `properties.ts` (lines 14-21): six
independent booleans. -/
structure MediaDirection where
  sendAudio : Bool
  sendVideo : Bool
  sendShare : Bool
  receiveAudio : Bool
  receiveVideo : Bool
  receiveShare : Bool
deriving DecidableEq, Repr

/-- Modelled from the spec: the `MEETINGS` constant imported from
`../constants`, whose file is not part of the excerpt; its concrete value is
irrelevant to every claim. -/
def MEETINGS : String := "meetings"

/-- Modelled from the spec: the `HIGH` member of `QUALITY_LEVELS` imported
from `../constants`, whose file is not part of the excerpt; its concrete
value is irrelevant to every claim. -/
def QUALITY_LEVELS_HIGH : String := "HIGH"

/-- The `MediaProperties` class state.  `remoteShareStream` is the extra
property that `unsetRemoteShareStream` assigns to (line 152); it is distinct
from `remoteShare`, the field `setRemoteShare` writes, and no declared field
of the TypeScript class — reading it on a fresh instance yields `undefined`. -/
structure MediaProperties where
  audioStream : JSVal LocalMicrophoneStream
  mediaDirection : MediaDirection
  mediaSettings : List (String × SettingsValue)
  webrtcMediaConnection : Option Connection
  remoteAudioStream : JSVal RemoteStream
  remoteQualityLevel : String
  remoteShare : JSVal RemoteStream
  remoteVideoStream : JSVal RemoteStream
  shareVideoStream : JSVal LocalDisplayStream
  shareAudioStream : JSVal LocalSystemAudioStream
  videoDeviceId : JSVal String
  videoStream : JSVal LocalCameraStream
  remoteShareStream : JSVal RemoteStream
  «namespace» : String
deriving DecidableEq, Repr

/-- The constructor (lines 45-65). -/
def MediaProperties.init : MediaProperties where
  webrtcMediaConnection := none
  mediaDirection :=
    { receiveAudio := false
      receiveVideo := false
      receiveShare := false
      sendAudio := false
      sendVideo := false
      sendShare := false }
  videoStream := .null
  audioStream := .null
  shareVideoStream := .null
  shareAudioStream := .null
  remoteShare := .undef
  remoteAudioStream := .undef
  remoteVideoStream := .undef
  remoteQualityLevel := QUALITY_LEVELS_HIGH
  mediaSettings := []
  videoDeviceId := .null
  remoteShareStream := .undef
  «namespace» := MEETINGS

/-- `getVideoDeviceId` (lines 71-73): `return this.videoDeviceId || null`. -/
def MediaProperties.getVideoDeviceId (mp : MediaProperties) : JSVal String :=
  if mp.videoDeviceId.isStrTruthy then mp.videoDeviceId else .null

def MediaProperties.setMediaDirection (mp : MediaProperties)
    (mediaDirection : MediaDirection) : MediaProperties :=
  { mp with mediaDirection := mediaDirection }

/-- `setMediaSettings` (lines 79-81): `this.mediaSettings[type] = values`,
with the settings object embedded as an association list (latest write
first). -/
def MediaProperties.setMediaSettings (mp : MediaProperties) (type : String)
    (values : SettingsValue) : MediaProperties :=
  { mp with mediaSettings := (type, values) :: mp.mediaSettings }

def MediaProperties.setMediaPeerConnection (mp : MediaProperties)
    (mediaPeerConnection : Option Connection) : MediaProperties :=
  { mp with webrtcMediaConnection := mediaPeerConnection }

def MediaProperties.setLocalVideoStream (mp : MediaProperties)
    (videoStream : JSVal LocalCameraStream) : MediaProperties :=
  { mp with videoStream := videoStream }

def MediaProperties.setLocalAudioStream (mp : MediaProperties)
    (audioStream : JSVal LocalMicrophoneStream) : MediaProperties :=
  { mp with audioStream := audioStream }

def MediaProperties.setLocalShareVideoStream (mp : MediaProperties)
    (shareVideoStream : JSVal LocalDisplayStream) : MediaProperties :=
  { mp with shareVideoStream := shareVideoStream }

def MediaProperties.setLocalShareAudioStream (mp : MediaProperties)
    (shareAudioStream : JSVal LocalSystemAudioStream) : MediaProperties :=
  { mp with shareAudioStream := shareAudioStream }

def MediaProperties.setRemoteQualityLevel (mp : MediaProperties)
    (remoteQualityLevel : String) : MediaProperties :=
  { mp with remoteQualityLevel := remoteQualityLevel }

def MediaProperties.setRemoteShare (mp : MediaProperties)
    (remoteShare : JSVal RemoteStream) : MediaProperties :=
  { mp with remoteShare := remoteShare }

def MediaProperties.setRemoteAudioStream (mp : MediaProperties)
    (remoteAudioStream : JSVal RemoteStream) : MediaProperties :=
  { mp with remoteAudioStream := remoteAudioStream }

def MediaProperties.setRemoteVideoStream (mp : MediaProperties)
    (remoteVideoStream : JSVal RemoteStream) : MediaProperties :=
  { mp with remoteVideoStream := remoteVideoStream }

/-- `setVideoDeviceId` (lines 134-136): the parameter is a string. -/
def MediaProperties.setVideoDeviceId (mp : MediaProperties)
    (deviceId : String) : MediaProperties :=
  { mp with videoDeviceId := .val deviceId }

def MediaProperties.unsetPeerConnection (mp : MediaProperties) : MediaProperties :=
  { mp with webrtcMediaConnection := none }

/-- `unsetRemoteMedia` (lines 146-149). -/
def MediaProperties.unsetRemoteMedia (mp : MediaProperties) : MediaProperties :=
  { mp with remoteAudioStream := .null, remoteVideoStream := .null }

/-- `unsetRemoteShareStream` (lines 151-153): writes the `remoteShareStream`
property, not `remoteShare`. -/
def MediaProperties.unsetRemoteShareStream (mp : MediaProperties) : MediaProperties :=
  { mp with remoteShareStream := .null }

/-- `unsetRemoteStreams` (lines 159-162). -/
def MediaProperties.unsetRemoteStreams (mp : MediaProperties) : MediaProperties :=
  mp.unsetRemoteMedia.unsetRemoteShareStream

/-- `hasLocalShareStream` (lines 168-170):
`!!(this.shareAudioStream || this.shareVideoStream)`. -/
def MediaProperties.hasLocalShareStream (mp : MediaProperties) : Bool :=
  mp.shareAudioStream.isObjTruthy || mp.shareVideoStream.isObjTruthy

/-- An observable event during `waitForMediaConnectionConnected`
(lines 185-206): either the `CONNECTION_STATE_CHANGED` listener runs and
finds the connection in state `s`, or the `PC_BAIL_TIMEOUT` timer fires. -/
inductive WaitEvent where
  | stateChanged (s : ConnectionState)
  | timerFire
deriving DecidableEq, Repr

inductive WaitResult where
  | resolved
  | rejected
  | pending
deriving DecidableEq, Repr

/-- What `waitForMediaConnectionConnected` did: how the promise settled,
whether the `CONNECTION_STATE_CHANGED` listener and the bail timer were
registered, whether `off` removed the listener, and whether `clearTimeout`
ran. -/
structure WaitOutcome where
  result : WaitResult
  listenerRegistered : Bool
  timerSet : Bool
  listenerRemoved : Bool
  timerCleared : Bool
deriving DecidableEq, Repr

/-- The event loop of `waitForMediaConnectionConnected` once the listener and
timer are installed: a `stateChanged connected` event clears the timer,
removes the listener and resolves (lines 193-197); other state changes are
ignored; the timer firing removes the listener and rejects (lines 200-203). -/
def waitLoop : List WaitEvent → WaitOutcome
  | [] => ⟨.pending, true, true, false, false⟩
  | .stateChanged s :: rest =>
    if s = .connected then ⟨.resolved, true, true, true, true⟩ else waitLoop rest
  | .timerFire :: _ => ⟨.rejected, true, true, true, false⟩

/-- `waitForMediaConnectionConnected` (lines 177-207) for a connection whose
state at call time is `initial`: if already connected it resolves at once,
registering nothing (lines 181-183); otherwise it installs the listener and
timer and follows the event trace. -/
def waitForMediaConnectionConnectedCore (initial : ConnectionState)
    (events : List WaitEvent) : WaitOutcome :=
  if initial = .connected then ⟨.resolved, false, false, false, false⟩
  else waitLoop events

/-- A JavaScript error thrown synchronously. -/
inductive JsError where
  | typeError
deriving DecidableEq, Repr

/-- Calling `waitForMediaConnectionConnected` on a `MediaProperties`
instance: `isConnected()` dereferences `this.webrtcMediaConnection` before
any promise is created (lines 178-181), so a `null` connection throws a
`TypeError` synchronously instead of returning a promise. -/
def MediaProperties.waitForMediaConnectionConnectedRun (mp : MediaProperties)
    (events : List WaitEvent) : Except JsError WaitOutcome :=
  match mp.webrtcMediaConnection with
  | none => .error .typeError
  | some c => .ok (waitForMediaConnectionConnectedCore c.connectionState events)

/-- A stats report as consumed by `getCurrentConnectionType` (lines 214-267):
only the accessed properties are kept, each optional because the reports are
free-form (`undefined` reads are `none`). -/
structure StatsReport where
  type : Option String
  id : Option String
  state : Option String
  localCandidateId : Option String
  relayProtocol : Option String
  protocol : Option String
deriving DecidableEq, Repr

/-- JavaScript truthiness of a string-or-undefined value. -/
def optStrTruthy : Option String → Bool
  | none => false
  | some s => !(s == "")

/-- `toLowerCase()` on the ASCII fragment the stats values live in, as a
character-wise map. -/
def jsToLower (s : String) : String := String.mk (s.data.map Char.toLower)

/-- `toUpperCase()` on the ASCII fragment the stats values live in, as a
character-wise map. -/
def jsToUpper (s : String) : String := String.mk (s.data.map Char.toUpper)

/-- The filter of line 229-231:
`report.type === 'candidate-pair' && report.state?.toLowerCase() === 'succeeded'`. -/
def isSucceededCandidatePair (report : StatsReport) : Bool :=
  report.type == some "candidate-pair"
    && report.state.map jsToLower == some "succeeded"

/-- The lookup of lines 237-239: the first report with
`type === 'local-candidate'` and `id === pair.localCandidateId`. -/
def findLocalCandidate (allStatsReports : List StatsReport)
    (pair : StatsReport) : Option StatsReport :=
  allStatsReports.find? fun report =>
    report.type == some "local-candidate" && report.id == pair.localCandidateId

/-- Lines 249-255: `TURN-` plus the upper-cased `relayProtocol` when that is
truthy, otherwise `protocol?.toUpperCase()` (which may be `undefined`). -/
def candidateConnectionType (localCandidate : StatsReport) : Option String :=
  if optStrTruthy localCandidate.relayProtocol then
    some ("TURN-" ++ jsToUpper (localCandidate.relayProtocol.getD ""))
  else
    localCandidate.protocol.map jsToUpper

/-- The `successfulCandidatePairs.some(...)` loop of lines 236-264, with the
mutable `foundConnectionType` threaded through: a pair whose local candidate
is missing, or whose computed connection type is falsy, is skipped; the first
truthy connection type is kept and the loop stops. -/
def connectionTypeLoop (allStatsReports : List StatsReport)
    (foundConnectionType : String) : List StatsReport → String
  | [] => foundConnectionType
  | pair :: rest =>
    match findLocalCandidate allStatsReports pair with
    | none => connectionTypeLoop allStatsReports foundConnectionType rest
    | some localCandidate =>
      match candidateConnectionType localCandidate with
      | none => connectionTypeLoop allStatsReports foundConnectionType rest
      | some ct =>
        if ct == "" then connectionTypeLoop allStatsReports foundConnectionType rest
        else ct

/-- Lines 229-266 applied to the collected reports, starting from
`foundConnectionType = 'unknown'`. -/
def connectionTypeFromStats (allStatsReports : List StatsReport) : String :=
  connectionTypeLoop allStatsReports "unknown"
    (allStatsReports.filter isSucceededCandidatePair)

/-- An opaque error produced by `getStats()`. -/
structure StatsError where
  msg : String
deriving DecidableEq, Repr

/-- How the promise returned by the `async` method settled. -/
inductive AsyncResult (α : Type) where
  | resolved (a : α)
  | rejected
  | pending
deriving DecidableEq, Repr

/-- `getCurrentConnectionType` (lines 214-267): awaits
`waitForMediaConnectionConnected` (a synchronous throw on a `null` connection
or a rejection of the wait propagates as a rejection of the async method),
then collects the `getStats()` reports — a `getStats()` failure is caught and
leaves the collected list empty (lines 220-227) — and classifies them.  The
method never writes any field, so the state is returned unchanged. -/
def MediaProperties.getCurrentConnectionTypeRun (mp : MediaProperties)
    (events : List WaitEvent)
    (statsResult : Except StatsError (List StatsReport)) :
    AsyncResult String × MediaProperties :=
  match mp.webrtcMediaConnection with
  | none => (.rejected, mp)
  | some c =>
    match (waitForMediaConnectionConnectedCore c.connectionState events).result with
    | .rejected => (.rejected, mp)
    | .pending => (.pending, mp)
    | .resolved =>
      let allStatsReports :=
        match statsResult with
        | .ok reports => reports
        | .error _ => []
      (.resolved (connectionTypeFromStats allStatsReports), mp)

/-- Written from the spec's words (claim C3), independent of the code
structure: the type a local candidate yields — `TURN-` followed by the
upper-cased `relayProtocol` when the candidate has one (a JavaScript
presence test, i.e. a truthy, non-empty string), otherwise the upper-cased
`protocol`. -/
def specCandidateType (localCandidate : StatsReport) : Option String :=
  match localCandidate.relayProtocol with
  | some rp =>
    if rp = "" then localCandidate.protocol.map jsToUpper
    else some ("TURN-" ++ jsToUpper rp)
  | none => localCandidate.protocol.map jsToUpper

/-- Written from the spec's words (claim C3): the type a successful pair
yields — defined exactly when its referenced local-candidate report is found
and the candidate yields a defined (truthy) type. -/
def specPairType (reports : List StatsReport) (pair : StatsReport) :
    Option String :=
  match reports.find? (fun report =>
      report.type == some "local-candidate"
        && report.id == pair.localCandidateId) with
  | none => none
  | some localCandidate =>
    match specCandidateType localCandidate with
    | none => none
    | some ct => if ct = "" then none else some ct

/-- Written from the spec's words (claim C3): filter the reports to
candidate-pair reports whose state equals `succeeded` case-insensitively;
return the type yielded by the first such pair that yields one, and
`unknown` when no successful pair yields a type. -/
def connectionTypeSpec (reports : List StatsReport) : String :=
  match (reports.filter fun report =>
      report.type == some "candidate-pair"
        && report.state.map jsToLower == some "succeeded").findSome?
      (specPairType reports) with
  | some ct => ct
  | none => "unknown"

theorem candidateConnectionType_eq_spec (lc : StatsReport) :
    candidateConnectionType lc = specCandidateType lc := by
  unfold candidateConnectionType specCandidateType optStrTruthy
  cases h : lc.relayProtocol with
  | none => simp
  | some rp =>
    by_cases hrp : rp = "" <;> simp [hrp, Option.getD]

theorem connectionTypeLoop_eq_findSome (all : List StatsReport) :
    ∀ l : List StatsReport,
      connectionTypeLoop all "unknown" l =
        ((l.findSome? (specPairType all)).getD "unknown") := by
  intro l
  induction l with
  | nil => simp [connectionTypeLoop, List.findSome?]
  | cons pair rest ih =>
    rw [connectionTypeLoop, List.findSome?]
    have hfind : findLocalCandidate all pair = all.find? (fun report =>
        report.type == some "local-candidate"
          && report.id == pair.localCandidateId) := rfl
    cases h : findLocalCandidate all pair with
    | none =>
      rw [specPairType, ← hfind, h]
      exact ih
    | some lc =>
      rw [specPairType, ← hfind, h]
      dsimp only
      rw [← candidateConnectionType_eq_spec]
      cases h2 : candidateConnectionType lc with
      | none => exact ih
      | some ct =>
        dsimp only
        by_cases hct : ct = "" <;>
          simp [hct, ih]

theorem connectionTypeFromStats_eq_spec (reports : List StatsReport) :
    connectionTypeFromStats reports = connectionTypeSpec reports := by
  rw [connectionTypeFromStats, connectionTypeSpec]
  have hfilter : reports.filter isSucceededCandidatePair =
      reports.filter fun report =>
        report.type == some "candidate-pair"
          && report.state.map jsToLower == some "succeeded" := rfl
  rw [hfilter, connectionTypeLoop_eq_findSome]
  cases (reports.filter fun report =>
      report.type == some "candidate-pair"
        && report.state.map jsToLower == some "succeeded").findSome?
      (specPairType reports) <;> simp [Option.getD]

theorem waitLoop_resolves_at_connected :
    ∀ pre post : List WaitEvent,
      (∀ e ∈ pre, e ≠ WaitEvent.timerFire ∧ e ≠ WaitEvent.stateChanged .connected) →
      waitLoop (pre ++ WaitEvent.stateChanged .connected :: post) =
        ⟨.resolved, true, true, true, true⟩ := by
  intro pre post h
  induction pre with
  | nil => simp [waitLoop]
  | cons e rest ih =>
    have he := h e (by simp)
    cases e with
    | timerFire => exact absurd rfl he.1
    | stateChanged s =>
      have hs : s ≠ ConnectionState.connected := by
        intro hs
        exact he.2 (by rw [hs])
      rw [List.cons_append, waitLoop, if_neg hs]
      exact ih fun e hm => h e (by simp [hm])

theorem waitLoop_rejects_at_timer :
    ∀ pre post : List WaitEvent,
      (∀ e ∈ pre, e ≠ WaitEvent.stateChanged .connected) →
      waitLoop (pre ++ WaitEvent.timerFire :: post) =
        ⟨.rejected, true, true, true, false⟩ := by
  intro pre post h
  induction pre with
  | nil => simp [waitLoop]
  | cons e rest ih =>
    cases e with
    | timerFire => rw [List.cons_append, waitLoop]
    | stateChanged s =>
      have hs : s ≠ ConnectionState.connected := by
        intro hs
        exact h (.stateChanged s) (by simp) (by rw [hs])
      rw [List.cons_append, waitLoop, if_neg hs]
      exact ih fun e hm => h e (by simp [hm])

theorem waitLoop_resolved_removes_listener :
    ∀ events : List WaitEvent, (waitLoop events).result = .resolved →
      (waitLoop events).listenerRemoved = true ∧
        (waitLoop events).timerCleared = true := by
  intro events
  induction events with
  | nil => intro h; exact absurd h (by simp [waitLoop])
  | cons e rest ih =>
    cases e with
    | timerFire => intro h; exact absurd h (by simp [waitLoop])
    | stateChanged s =>
      by_cases hs : s = ConnectionState.connected
      · rw [waitLoop, if_pos hs]
        intro _
        exact ⟨rfl, rfl⟩
      · rw [waitLoop, if_neg hs]
        exact ih

theorem waitRun_eq (mp : MediaProperties) (c : Connection)
    (events : List WaitEvent) (hconn : mp.webrtcMediaConnection = some c) :
    mp.waitForMediaConnectionConnectedRun events =
      .ok (waitForMediaConnectionConnectedCore c.connectionState events) := by
  unfold MediaProperties.waitForMediaConnectionConnectedRun
  rw [hconn]

/-- C1: with a media peer connection set, `waitForMediaConnectionConnected`
resolves immediately — registering no listener and no timer — when the
connection is already `Connected`; otherwise it resolves exactly when a
`CONNECTION_STATE_CHANGED` event is observed with the connection in state
`Connected` (events after that one are irrelevant to the outcome). -/
theorem waitForMediaConnectionConnected_resolves
    (mp : MediaProperties) (c : Connection) (events : List WaitEvent)
    (hconn : mp.webrtcMediaConnection = some c) :
    (c.connectionState = .connected →
      mp.waitForMediaConnectionConnectedRun events =
        .ok ⟨.resolved, false, false, false, false⟩) ∧
    (c.connectionState ≠ .connected →
      ∀ pre post, events = pre ++ WaitEvent.stateChanged .connected :: post →
        (∀ e ∈ pre, e ≠ WaitEvent.timerFire ∧ e ≠ WaitEvent.stateChanged .connected) →
        mp.waitForMediaConnectionConnectedRun events =
          .ok ⟨.resolved, true, true, true, true⟩ ∧
        mp.waitForMediaConnectionConnectedRun events =
          mp.waitForMediaConnectionConnectedRun
            (pre ++ [WaitEvent.stateChanged .connected])) := by
  constructor
  · intro hc
    rw [waitRun_eq mp c events hconn]
    unfold waitForMediaConnectionConnectedCore
    rw [if_pos hc]
  · intro hc pre post hev hpre
    subst hev
    constructor
    · rw [waitRun_eq mp c _ hconn]
      unfold waitForMediaConnectionConnectedCore
      rw [if_neg hc, waitLoop_resolves_at_connected pre post hpre]
    · rw [waitRun_eq mp c _ hconn, waitRun_eq mp c _ hconn]
      unfold waitForMediaConnectionConnectedCore
      simp only [if_neg hc]
      rw [waitLoop_resolves_at_connected pre post hpre,
        waitLoop_resolves_at_connected pre [] hpre]

theorem waitForMediaConnectionConnected_resolves_witness :
    (MediaProperties.init.setMediaPeerConnection
        (some ⟨.connected⟩)).waitForMediaConnectionConnectedRun [] =
      .ok ⟨.resolved, false, false, false, false⟩ ∧
    (MediaProperties.init.setMediaPeerConnection
        (some ⟨.connecting⟩)).waitForMediaConnectionConnectedRun
        [WaitEvent.stateChanged .connecting, WaitEvent.stateChanged .connected] =
      .ok ⟨.resolved, true, true, true, true⟩ := by
  constructor
  · exact (waitForMediaConnectionConnected_resolves _ ⟨.connected⟩ [] rfl).1 rfl
  · exact ((waitForMediaConnectionConnected_resolves _ ⟨.connecting⟩ _ rfl).2
      (by decide) [WaitEvent.stateChanged .connecting]
      [] rfl (by decide)).1

/-- C2: with a media peer connection set that is not yet `Connected`, the
wait is bounded: if no `CONNECTION_STATE_CHANGED` event finds the connection
`Connected` before the `PC_BAIL_TIMEOUT` timer fires, the promise rejects and
the listener is removed via `off`; on the success path the listener is
removed via `off` as well (with the timer cleared). -/
theorem waitForMediaConnectionConnected_bounded
    (mp : MediaProperties) (c : Connection)
    (hconn : mp.webrtcMediaConnection = some c)
    (hnc : c.connectionState ≠ .connected) :
    (∀ pre post, (∀ e ∈ pre, e ≠ WaitEvent.stateChanged .connected) →
      mp.waitForMediaConnectionConnectedRun (pre ++ WaitEvent.timerFire :: post) =
        .ok ⟨.rejected, true, true, true, false⟩) ∧
    (∀ events out, mp.waitForMediaConnectionConnectedRun events = .ok out →
      out.result = .resolved →
        out.listenerRemoved = true ∧ out.timerCleared = true) := by
  constructor
  · intro pre post hpre
    rw [waitRun_eq mp c _ hconn]
    unfold waitForMediaConnectionConnectedCore
    rw [if_neg hnc, waitLoop_rejects_at_timer pre post hpre]
  · intro events out hout hres
    rw [waitRun_eq mp c events hconn] at hout
    unfold waitForMediaConnectionConnectedCore at hout
    rw [if_neg hnc] at hout
    have h := Except.ok.inj hout
    subst h
    exact waitLoop_resolved_removes_listener events hres

theorem waitForMediaConnectionConnected_bounded_witness :
    (MediaProperties.init.setMediaPeerConnection
        (some ⟨.new⟩)).waitForMediaConnectionConnectedRun
        [WaitEvent.stateChanged .connecting, WaitEvent.timerFire] =
      .ok ⟨.rejected, true, true, true, false⟩ :=
  (waitForMediaConnectionConnected_bounded _ ⟨.new⟩ rfl (by decide)).1
    [WaitEvent.stateChanged .connecting] [] (by decide)

theorem getCurrentConnectionTypeRun_preserves (mp : MediaProperties)
    (events : List WaitEvent)
    (statsResult : Except StatsError (List StatsReport)) :
    (mp.getCurrentConnectionTypeRun events statsResult).2 = mp := by
  unfold MediaProperties.getCurrentConnectionTypeRun
  cases hw : mp.webrtcMediaConnection with
  | none => rfl
  | some c =>
    dsimp only
    cases h : (waitForMediaConnectionConnectedCore c.connectionState events).result
      <;> rfl

/-- C3: on a connected media connection, `getCurrentConnectionType`
classifies the `getStats()` reports exactly as the spec describes it
(`connectionTypeSpec`, written from the spec's words): the first successful
candidate pair whose local candidate is found and yields a (truthy) type
gives `TURN-` + upper-cased `relayProtocol` when the candidate has a
`relayProtocol`, else the upper-cased `protocol`; otherwise `unknown`. -/
theorem getCurrentConnectionType_classifies
    (mp : MediaProperties) (c : Connection) (events : List WaitEvent)
    (reports : List StatsReport)
    (hconn : mp.webrtcMediaConnection = some c)
    (hc : c.connectionState = .connected) :
    mp.getCurrentConnectionTypeRun events (.ok reports) =
      (.resolved (connectionTypeSpec reports), mp) := by
  unfold MediaProperties.getCurrentConnectionTypeRun
  rw [hconn]
  dsimp only
  unfold waitForMediaConnectionConnectedCore
  rw [if_pos hc]
  dsimp only
  rw [connectionTypeFromStats_eq_spec]

theorem getCurrentConnectionType_classifies_witness :
    (MediaProperties.init.setMediaPeerConnection
        (some ⟨.connected⟩)).getCurrentConnectionTypeRun []
        (.ok
          [{ type := some "candidate-pair", id := some "p1",
             state := some "Succeeded", localCandidateId := some "lc1",
             relayProtocol := none, protocol := none },
           { type := some "local-candidate", id := some "lc1", state := none,
             localCandidateId := none, relayProtocol := some "tls",
             protocol := some "udp" }]) =
      (.resolved "TURN-TLS",
        MediaProperties.init.setMediaPeerConnection (some ⟨.connected⟩)) := by
  have h := getCurrentConnectionType_classifies
    (MediaProperties.init.setMediaPeerConnection (some ⟨.connected⟩))
    ⟨.connected⟩ []
    [{ type := some "candidate-pair", id := some "p1",
       state := some "Succeeded", localCandidateId := some "lc1",
       relayProtocol := none, protocol := none },
     { type := some "local-candidate", id := some "lc1", state := none,
       localCandidateId := none, relayProtocol := some "tls",
       protocol := some "udp" }] rfl rfl
  rw [h]
  decide

/-- C4: on a connected media connection, a `getStats()` failure is caught:
`getCurrentConnectionType` resolves with `unknown` rather than failing, and
in every case — failure or not — the stored `MediaProperties` state is
returned unchanged. -/
theorem getCurrentConnectionType_stats_error_unknown
    (mp : MediaProperties) (c : Connection) (events : List WaitEvent)
    (hconn : mp.webrtcMediaConnection = some c)
    (hc : c.connectionState = .connected) :
    (∀ err : StatsError,
      mp.getCurrentConnectionTypeRun events (.error err) =
        (.resolved "unknown", mp)) ∧
    (∀ statsResult : Except StatsError (List StatsReport),
      (mp.getCurrentConnectionTypeRun events statsResult).2 = mp) := by
  constructor
  · intro err
    unfold MediaProperties.getCurrentConnectionTypeRun
    rw [hconn]
    dsimp only
    unfold waitForMediaConnectionConnectedCore
    rw [if_pos hc]
    rfl
  · intro statsResult
    exact getCurrentConnectionTypeRun_preserves mp events statsResult

theorem getCurrentConnectionType_stats_error_unknown_witness :
    (MediaProperties.init.setMediaPeerConnection
        (some ⟨.connected⟩)).getCurrentConnectionTypeRun []
        (.error ⟨"getStats failed"⟩) =
      (.resolved "unknown",
        MediaProperties.init.setMediaPeerConnection (some ⟨.connected⟩)) :=
  (getCurrentConnectionType_stats_error_unknown _ ⟨.connected⟩ [] rfl rfl).1
    ⟨"getStats failed"⟩

/-- C9: `waitForMediaConnectionConnected` has the unstated precondition that
a media peer connection is set: whenever `webrtcMediaConnection` is `null` —
as in the freshly constructed state and after `unsetPeerConnection` — the
call throws a `TypeError` synchronously (modelled as `Except.error`, as
opposed to returning a promise); whenever a connection is set, the call
returns a promise (`Except.ok`), so the throwing branch is unreachable. -/
theorem waitForMediaConnectionConnected_null_throws :
    (∀ (mp : MediaProperties) (events : List WaitEvent),
      mp.webrtcMediaConnection = none →
        mp.waitForMediaConnectionConnectedRun events = .error .typeError) ∧
    MediaProperties.init.webrtcMediaConnection = none ∧
    (∀ mp : MediaProperties,
      mp.unsetPeerConnection.webrtcMediaConnection = none) ∧
    (∀ (mp : MediaProperties) (c : Connection) (events : List WaitEvent),
      mp.webrtcMediaConnection = some c →
        mp.waitForMediaConnectionConnectedRun events =
          .ok (waitForMediaConnectionConnectedCore c.connectionState events)) := by
  refine ⟨?_, rfl, fun mp => rfl, fun mp c events h => waitRun_eq mp c events h⟩
  intro mp events h
  unfold MediaProperties.waitForMediaConnectionConnectedRun
  rw [h]

theorem waitForMediaConnectionConnected_null_throws_witness :
    MediaProperties.init.waitForMediaConnectionConnectedRun [] =
      .error .typeError :=
  waitForMediaConnectionConnected_null_throws.1 MediaProperties.init [] rfl


/-- C5: every setter and unsetter of `MediaProperties` writes only its own
designated attribute and leaves every other attribute unchanged, and none
validates its input against other attributes: the updates hold for every
state and every input, in particular for every combination of the six
direction flags. -/
theorem setters_frame_effects (mp : MediaProperties) (d : MediaDirection)
    (pc : Option Connection) (v : JSVal LocalCameraStream)
    (a : JSVal LocalMicrophoneStream) (sv : JSVal LocalDisplayStream)
    (sa : JSVal LocalSystemAudioStream) (q : String)
    (rs ra rv : JSVal RemoteStream) (did : String) :
    (mp.setMediaDirection d).mediaDirection = d ∧
    (mp.setMediaDirection d).audioStream = mp.audioStream ∧
    (mp.setMediaDirection d).mediaSettings = mp.mediaSettings ∧
    (mp.setMediaDirection d).webrtcMediaConnection = mp.webrtcMediaConnection ∧
    (mp.setMediaDirection d).remoteAudioStream = mp.remoteAudioStream ∧
    (mp.setMediaDirection d).remoteQualityLevel = mp.remoteQualityLevel ∧
    (mp.setMediaDirection d).remoteShare = mp.remoteShare ∧
    (mp.setMediaDirection d).remoteVideoStream = mp.remoteVideoStream ∧
    (mp.setMediaDirection d).shareVideoStream = mp.shareVideoStream ∧
    (mp.setMediaDirection d).shareAudioStream = mp.shareAudioStream ∧
    (mp.setMediaDirection d).videoDeviceId = mp.videoDeviceId ∧
    (mp.setMediaDirection d).videoStream = mp.videoStream ∧
    (mp.setMediaDirection d).remoteShareStream = mp.remoteShareStream ∧
    (mp.setMediaDirection d).«namespace» = mp.«namespace» ∧
    (mp.setMediaPeerConnection pc).webrtcMediaConnection = pc ∧
    (mp.setMediaPeerConnection pc).audioStream = mp.audioStream ∧
    (mp.setMediaPeerConnection pc).mediaDirection = mp.mediaDirection ∧
    (mp.setMediaPeerConnection pc).mediaSettings = mp.mediaSettings ∧
    (mp.setMediaPeerConnection pc).remoteAudioStream = mp.remoteAudioStream ∧
    (mp.setMediaPeerConnection pc).remoteQualityLevel = mp.remoteQualityLevel ∧
    (mp.setMediaPeerConnection pc).remoteShare = mp.remoteShare ∧
    (mp.setMediaPeerConnection pc).remoteVideoStream = mp.remoteVideoStream ∧
    (mp.setMediaPeerConnection pc).shareVideoStream = mp.shareVideoStream ∧
    (mp.setMediaPeerConnection pc).shareAudioStream = mp.shareAudioStream ∧
    (mp.setMediaPeerConnection pc).videoDeviceId = mp.videoDeviceId ∧
    (mp.setMediaPeerConnection pc).videoStream = mp.videoStream ∧
    (mp.setMediaPeerConnection pc).remoteShareStream = mp.remoteShareStream ∧
    (mp.setMediaPeerConnection pc).«namespace» = mp.«namespace» ∧
    (mp.setLocalVideoStream v).videoStream = v ∧
    (mp.setLocalVideoStream v).audioStream = mp.audioStream ∧
    (mp.setLocalVideoStream v).mediaDirection = mp.mediaDirection ∧
    (mp.setLocalVideoStream v).mediaSettings = mp.mediaSettings ∧
    (mp.setLocalVideoStream v).webrtcMediaConnection = mp.webrtcMediaConnection ∧
    (mp.setLocalVideoStream v).remoteAudioStream = mp.remoteAudioStream ∧
    (mp.setLocalVideoStream v).remoteQualityLevel = mp.remoteQualityLevel ∧
    (mp.setLocalVideoStream v).remoteShare = mp.remoteShare ∧
    (mp.setLocalVideoStream v).remoteVideoStream = mp.remoteVideoStream ∧
    (mp.setLocalVideoStream v).shareVideoStream = mp.shareVideoStream ∧
    (mp.setLocalVideoStream v).shareAudioStream = mp.shareAudioStream ∧
    (mp.setLocalVideoStream v).videoDeviceId = mp.videoDeviceId ∧
    (mp.setLocalVideoStream v).remoteShareStream = mp.remoteShareStream ∧
    (mp.setLocalVideoStream v).«namespace» = mp.«namespace» ∧
    (mp.setLocalAudioStream a).audioStream = a ∧
    (mp.setLocalAudioStream a).mediaDirection = mp.mediaDirection ∧
    (mp.setLocalAudioStream a).mediaSettings = mp.mediaSettings ∧
    (mp.setLocalAudioStream a).webrtcMediaConnection = mp.webrtcMediaConnection ∧
    (mp.setLocalAudioStream a).remoteAudioStream = mp.remoteAudioStream ∧
    (mp.setLocalAudioStream a).remoteQualityLevel = mp.remoteQualityLevel ∧
    (mp.setLocalAudioStream a).remoteShare = mp.remoteShare ∧
    (mp.setLocalAudioStream a).remoteVideoStream = mp.remoteVideoStream ∧
    (mp.setLocalAudioStream a).shareVideoStream = mp.shareVideoStream ∧
    (mp.setLocalAudioStream a).shareAudioStream = mp.shareAudioStream ∧
    (mp.setLocalAudioStream a).videoDeviceId = mp.videoDeviceId ∧
    (mp.setLocalAudioStream a).videoStream = mp.videoStream ∧
    (mp.setLocalAudioStream a).remoteShareStream = mp.remoteShareStream ∧
    (mp.setLocalAudioStream a).«namespace» = mp.«namespace» ∧
    (mp.setLocalShareVideoStream sv).shareVideoStream = sv ∧
    (mp.setLocalShareVideoStream sv).audioStream = mp.audioStream ∧
    (mp.setLocalShareVideoStream sv).mediaDirection = mp.mediaDirection ∧
    (mp.setLocalShareVideoStream sv).mediaSettings = mp.mediaSettings ∧
    (mp.setLocalShareVideoStream sv).webrtcMediaConnection = mp.webrtcMediaConnection ∧
    (mp.setLocalShareVideoStream sv).remoteAudioStream = mp.remoteAudioStream ∧
    (mp.setLocalShareVideoStream sv).remoteQualityLevel = mp.remoteQualityLevel ∧
    (mp.setLocalShareVideoStream sv).remoteShare = mp.remoteShare ∧
    (mp.setLocalShareVideoStream sv).remoteVideoStream = mp.remoteVideoStream ∧
    (mp.setLocalShareVideoStream sv).shareAudioStream = mp.shareAudioStream ∧
    (mp.setLocalShareVideoStream sv).videoDeviceId = mp.videoDeviceId ∧
    (mp.setLocalShareVideoStream sv).videoStream = mp.videoStream ∧
    (mp.setLocalShareVideoStream sv).remoteShareStream = mp.remoteShareStream ∧
    (mp.setLocalShareVideoStream sv).«namespace» = mp.«namespace» ∧
    (mp.setLocalShareAudioStream sa).shareAudioStream = sa ∧
    (mp.setLocalShareAudioStream sa).audioStream = mp.audioStream ∧
    (mp.setLocalShareAudioStream sa).mediaDirection = mp.mediaDirection ∧
    (mp.setLocalShareAudioStream sa).mediaSettings = mp.mediaSettings ∧
    (mp.setLocalShareAudioStream sa).webrtcMediaConnection = mp.webrtcMediaConnection ∧
    (mp.setLocalShareAudioStream sa).remoteAudioStream = mp.remoteAudioStream ∧
    (mp.setLocalShareAudioStream sa).remoteQualityLevel = mp.remoteQualityLevel ∧
    (mp.setLocalShareAudioStream sa).remoteShare = mp.remoteShare ∧
    (mp.setLocalShareAudioStream sa).remoteVideoStream = mp.remoteVideoStream ∧
    (mp.setLocalShareAudioStream sa).shareVideoStream = mp.shareVideoStream ∧
    (mp.setLocalShareAudioStream sa).videoDeviceId = mp.videoDeviceId ∧
    (mp.setLocalShareAudioStream sa).videoStream = mp.videoStream ∧
    (mp.setLocalShareAudioStream sa).remoteShareStream = mp.remoteShareStream ∧
    (mp.setLocalShareAudioStream sa).«namespace» = mp.«namespace» ∧
    (mp.setRemoteQualityLevel q).remoteQualityLevel = q ∧
    (mp.setRemoteQualityLevel q).audioStream = mp.audioStream ∧
    (mp.setRemoteQualityLevel q).mediaDirection = mp.mediaDirection ∧
    (mp.setRemoteQualityLevel q).mediaSettings = mp.mediaSettings ∧
    (mp.setRemoteQualityLevel q).webrtcMediaConnection = mp.webrtcMediaConnection ∧
    (mp.setRemoteQualityLevel q).remoteAudioStream = mp.remoteAudioStream ∧
    (mp.setRemoteQualityLevel q).remoteShare = mp.remoteShare ∧
    (mp.setRemoteQualityLevel q).remoteVideoStream = mp.remoteVideoStream ∧
    (mp.setRemoteQualityLevel q).shareVideoStream = mp.shareVideoStream ∧
    (mp.setRemoteQualityLevel q).shareAudioStream = mp.shareAudioStream ∧
    (mp.setRemoteQualityLevel q).videoDeviceId = mp.videoDeviceId ∧
    (mp.setRemoteQualityLevel q).videoStream = mp.videoStream ∧
    (mp.setRemoteQualityLevel q).remoteShareStream = mp.remoteShareStream ∧
    (mp.setRemoteQualityLevel q).«namespace» = mp.«namespace» ∧
    (mp.setRemoteShare rs).remoteShare = rs ∧
    (mp.setRemoteShare rs).audioStream = mp.audioStream ∧
    (mp.setRemoteShare rs).mediaDirection = mp.mediaDirection ∧
    (mp.setRemoteShare rs).mediaSettings = mp.mediaSettings ∧
    (mp.setRemoteShare rs).webrtcMediaConnection = mp.webrtcMediaConnection ∧
    (mp.setRemoteShare rs).remoteAudioStream = mp.remoteAudioStream ∧
    (mp.setRemoteShare rs).remoteQualityLevel = mp.remoteQualityLevel ∧
    (mp.setRemoteShare rs).remoteVideoStream = mp.remoteVideoStream ∧
    (mp.setRemoteShare rs).shareVideoStream = mp.shareVideoStream ∧
    (mp.setRemoteShare rs).shareAudioStream = mp.shareAudioStream ∧
    (mp.setRemoteShare rs).videoDeviceId = mp.videoDeviceId ∧
    (mp.setRemoteShare rs).videoStream = mp.videoStream ∧
    (mp.setRemoteShare rs).remoteShareStream = mp.remoteShareStream ∧
    (mp.setRemoteShare rs).«namespace» = mp.«namespace» ∧
    (mp.setRemoteAudioStream ra).remoteAudioStream = ra ∧
    (mp.setRemoteAudioStream ra).audioStream = mp.audioStream ∧
    (mp.setRemoteAudioStream ra).mediaDirection = mp.mediaDirection ∧
    (mp.setRemoteAudioStream ra).mediaSettings = mp.mediaSettings ∧
    (mp.setRemoteAudioStream ra).webrtcMediaConnection = mp.webrtcMediaConnection ∧
    (mp.setRemoteAudioStream ra).remoteQualityLevel = mp.remoteQualityLevel ∧
    (mp.setRemoteAudioStream ra).remoteShare = mp.remoteShare ∧
    (mp.setRemoteAudioStream ra).remoteVideoStream = mp.remoteVideoStream ∧
    (mp.setRemoteAudioStream ra).shareVideoStream = mp.shareVideoStream ∧
    (mp.setRemoteAudioStream ra).shareAudioStream = mp.shareAudioStream ∧
    (mp.setRemoteAudioStream ra).videoDeviceId = mp.videoDeviceId ∧
    (mp.setRemoteAudioStream ra).videoStream = mp.videoStream ∧
    (mp.setRemoteAudioStream ra).remoteShareStream = mp.remoteShareStream ∧
    (mp.setRemoteAudioStream ra).«namespace» = mp.«namespace» ∧
    (mp.setRemoteVideoStream rv).remoteVideoStream = rv ∧
    (mp.setRemoteVideoStream rv).audioStream = mp.audioStream ∧
    (mp.setRemoteVideoStream rv).mediaDirection = mp.mediaDirection ∧
    (mp.setRemoteVideoStream rv).mediaSettings = mp.mediaSettings ∧
    (mp.setRemoteVideoStream rv).webrtcMediaConnection = mp.webrtcMediaConnection ∧
    (mp.setRemoteVideoStream rv).remoteAudioStream = mp.remoteAudioStream ∧
    (mp.setRemoteVideoStream rv).remoteQualityLevel = mp.remoteQualityLevel ∧
    (mp.setRemoteVideoStream rv).remoteShare = mp.remoteShare ∧
    (mp.setRemoteVideoStream rv).shareVideoStream = mp.shareVideoStream ∧
    (mp.setRemoteVideoStream rv).shareAudioStream = mp.shareAudioStream ∧
    (mp.setRemoteVideoStream rv).videoDeviceId = mp.videoDeviceId ∧
    (mp.setRemoteVideoStream rv).videoStream = mp.videoStream ∧
    (mp.setRemoteVideoStream rv).remoteShareStream = mp.remoteShareStream ∧
    (mp.setRemoteVideoStream rv).«namespace» = mp.«namespace» ∧
    (mp.setVideoDeviceId did).videoDeviceId = JSVal.val did ∧
    (mp.setVideoDeviceId did).audioStream = mp.audioStream ∧
    (mp.setVideoDeviceId did).mediaDirection = mp.mediaDirection ∧
    (mp.setVideoDeviceId did).mediaSettings = mp.mediaSettings ∧
    (mp.setVideoDeviceId did).webrtcMediaConnection = mp.webrtcMediaConnection ∧
    (mp.setVideoDeviceId did).remoteAudioStream = mp.remoteAudioStream ∧
    (mp.setVideoDeviceId did).remoteQualityLevel = mp.remoteQualityLevel ∧
    (mp.setVideoDeviceId did).remoteShare = mp.remoteShare ∧
    (mp.setVideoDeviceId did).remoteVideoStream = mp.remoteVideoStream ∧
    (mp.setVideoDeviceId did).shareVideoStream = mp.shareVideoStream ∧
    (mp.setVideoDeviceId did).shareAudioStream = mp.shareAudioStream ∧
    (mp.setVideoDeviceId did).videoStream = mp.videoStream ∧
    (mp.setVideoDeviceId did).remoteShareStream = mp.remoteShareStream ∧
    (mp.setVideoDeviceId did).«namespace» = mp.«namespace» ∧
    (mp.unsetPeerConnection).webrtcMediaConnection = none ∧
    (mp.unsetPeerConnection).audioStream = mp.audioStream ∧
    (mp.unsetPeerConnection).mediaDirection = mp.mediaDirection ∧
    (mp.unsetPeerConnection).mediaSettings = mp.mediaSettings ∧
    (mp.unsetPeerConnection).remoteAudioStream = mp.remoteAudioStream ∧
    (mp.unsetPeerConnection).remoteQualityLevel = mp.remoteQualityLevel ∧
    (mp.unsetPeerConnection).remoteShare = mp.remoteShare ∧
    (mp.unsetPeerConnection).remoteVideoStream = mp.remoteVideoStream ∧
    (mp.unsetPeerConnection).shareVideoStream = mp.shareVideoStream ∧
    (mp.unsetPeerConnection).shareAudioStream = mp.shareAudioStream ∧
    (mp.unsetPeerConnection).videoDeviceId = mp.videoDeviceId ∧
    (mp.unsetPeerConnection).videoStream = mp.videoStream ∧
    (mp.unsetPeerConnection).remoteShareStream = mp.remoteShareStream ∧
    (mp.unsetPeerConnection).«namespace» = mp.«namespace» := by
  repeat' apply And.intro
  all_goals rfl

/-- C6: the media-direction flag set is exactly the six independent booleans
(two `MediaDirection` values agreeing on all six flags are equal), and the
constructor initializes all six to `false`, the connection handle to `null`,
the local stream handles to `null`, the remote stream handles to
`undefined`, `remoteQualityLevel` to `QUALITY_LEVELS.HIGH`, and
`mediaSettings` to an empty object. -/
theorem mediaDirection_flags_and_init_defaults :
    (∀ d1 d2 : MediaDirection,
      (d1.sendAudio = d2.sendAudio ∧ d1.sendVideo = d2.sendVideo ∧
        d1.sendShare = d2.sendShare ∧ d1.receiveAudio = d2.receiveAudio ∧
        d1.receiveVideo = d2.receiveVideo ∧ d1.receiveShare = d2.receiveShare)
      ↔ d1 = d2) ∧
    MediaProperties.init.mediaDirection =
      ⟨false, false, false, false, false, false⟩ ∧
    MediaProperties.init.webrtcMediaConnection = none ∧
    MediaProperties.init.videoStream = .null ∧
    MediaProperties.init.audioStream = .null ∧
    MediaProperties.init.shareVideoStream = .null ∧
    MediaProperties.init.shareAudioStream = .null ∧
    MediaProperties.init.remoteShare = .undef ∧
    MediaProperties.init.remoteAudioStream = .undef ∧
    MediaProperties.init.remoteVideoStream = .undef ∧
    MediaProperties.init.remoteQualityLevel = QUALITY_LEVELS_HIGH ∧
    MediaProperties.init.mediaSettings = [] := by
  refine ⟨?_, rfl, rfl, rfl, rfl, rfl, rfl, rfl, rfl, rfl, rfl, rfl⟩
  intro d1 d2
  constructor
  · rintro ⟨h1, h2, h3, h4, h5, h6⟩
    cases d1
    cases d2
    simp_all
  · rintro rfl
    exact ⟨rfl, rfl, rfl, rfl, rfl, rfl⟩

/-- C7: `hasLocalShareStream` returns `true` exactly when at least one of the
stored local share stream handles is truthy; in particular it is `false` on a
fresh instance and after both share setters are called with
null/undefined. -/
theorem hasLocalShareStream_iff (mp : MediaProperties) :
    (mp.hasLocalShareStream = true ↔
      (mp.shareAudioStream.isObjTruthy = true ∨
        mp.shareVideoStream.isObjTruthy = true)) ∧
    MediaProperties.init.hasLocalShareStream = false ∧
    (∀ (sa : JSVal LocalSystemAudioStream) (sv : JSVal LocalDisplayStream),
      (sa = .null ∨ sa = .undef) → (sv = .null ∨ sv = .undef) →
      ((mp.setLocalShareAudioStream sa).setLocalShareVideoStream
          sv).hasLocalShareStream = false) := by
  refine ⟨?_, rfl, ?_⟩
  · exact iff_of_eq (Bool.or_eq_true _ _)
  · intro sa sv hsa hsv
    rcases hsa with rfl | rfl <;> rcases hsv with rfl | rfl <;> rfl

theorem hasLocalShareStream_iff_witness :
    (MediaProperties.init.setLocalShareAudioStream
        (.val ⟨1⟩)).hasLocalShareStream = true ∧
    ((MediaProperties.init.setLocalShareAudioStream
        (.null)).setLocalShareVideoStream (.undef)).hasLocalShareStream =
      false :=
  ⟨(hasLocalShareStream_iff
      (MediaProperties.init.setLocalShareAudioStream (.val ⟨1⟩))).1.mpr
      (Or.inl rfl),
    (hasLocalShareStream_iff MediaProperties.init).2.2 .null .undef
      (Or.inl rfl) (Or.inr rfl)⟩

/-- C8: `unsetRemoteStreams` nulls `remoteAudioStream` and
`remoteVideoStream` but leaves `remoteShare` — the field `setRemoteShare`
writes — unchanged, because `unsetRemoteShareStream` assigns `null` to the
distinct `remoteShareStream` property. -/
theorem unsetRemoteStreams_misses_remoteShare (mp : MediaProperties) :
    mp.unsetRemoteStreams.remoteAudioStream = .null ∧
    mp.unsetRemoteStreams.remoteVideoStream = .null ∧
    mp.unsetRemoteStreams.remoteShare = mp.remoteShare ∧
    mp.unsetRemoteStreams.remoteShareStream = .null ∧
    (∀ s : JSVal RemoteStream,
      (mp.setRemoteShare s).remoteShare = s ∧
      (mp.setRemoteShare s).remoteShareStream = mp.remoteShareStream) :=
  ⟨rfl, rfl, rfl, rfl, fun _ => ⟨rfl, rfl⟩⟩

/-- C10: `getVideoDeviceId` returns `null` whenever the stored
`videoDeviceId` is falsy — in particular after `setVideoDeviceId('')` it
returns `null` rather than the stored empty string, and on a fresh instance
it returns `null`. -/
theorem getVideoDeviceId_null_on_falsy (mp : MediaProperties) :
    (mp.videoDeviceId.isStrTruthy = false → mp.getVideoDeviceId = .null) ∧
    (mp.setVideoDeviceId "").getVideoDeviceId = .null ∧
    (mp.setVideoDeviceId "").videoDeviceId = .val "" ∧
    MediaProperties.init.getVideoDeviceId = .null := by
  refine ⟨?_, rfl, rfl, rfl⟩
  intro h
  unfold MediaProperties.getVideoDeviceId
  simp [h]

theorem getVideoDeviceId_null_on_falsy_witness :
    MediaProperties.init.getVideoDeviceId = .null :=
  (getVideoDeviceId_null_on_falsy MediaProperties.init).1 rfl
